import Mathlib

/-!
Verification of the data-quality analysis and baseline-versioning core of the
`data-drift-monitoring` repository (backend/app/core/quality and
backend/app/utils).

The Python source is shallowly embedded: dataframes become explicit
column-major tables, Python floats become exact rationals (`ℚ`), fallible
Python code returns `Option`/`Except`, and functions that could mutate their
dataframe argument return the post-call dataframe state explicitly.

Embedding conventions, used throughout:
* Python `float` is modelled as `ℚ`.  All branch decisions taken by the
  source on floats (comparisons with thresholds, equality with zero) are
  exact rational comparisons here.
* `round(x, 2)` is modelled as round-half-to-even at two decimal digits
  (`pyRound2`), Python's documented rounding mode.
* Quantities whose Python value is a square root (standard deviation,
  skewness) are carried as their squares/variances, which determine them
  uniquely since a standard deviation is nonnegative; every comparison the
  source makes against such a quantity is re-expressed equivalently on the
  square (see the individual definitions).
* Python's stable `sorted(..., reverse=True)` with a key function is
  modelled by the stable descending insertion sort `pySortDescBy`.
-/

namespace DriftMonitor

/-- Decidable equality for `Except` results (used to evaluate the embedded
fallible operations on concrete inputs). -/
instance {ε α : Type} [DecidableEq ε] [DecidableEq α] : DecidableEq (Except ε α) :=
  fun x y =>
    match x, y with
    | Except.error a, Except.error b => decidable_of_iff (a = b) (by simp)
    | Except.error _, Except.ok _ => Decidable.isFalse (by simp)
    | Except.ok _, Except.error _ => Decidable.isFalse (by simp)
    | Except.ok a, Except.ok b => decidable_of_iff (a = b) (by simp)

/-! ## Python arithmetic helpers -/

/-- Round a rational to the nearest integer, ties to even: the rounding mode
of Python's builtin `round`. -/
def roundHalfEven (x : ℚ) : ℤ :=
  let f : ℤ := ⌊x⌋
  let frac : ℚ := x - f
  if frac < 1/2 then f
  else if 1/2 < frac then f + 1
  else if f % 2 = 0 then f else f + 1

/-- Python `round(x, 2)`: round to two decimal places, ties to even. -/
def pyRound2 (x : ℚ) : ℚ := (roundHalfEven (x * 100) : ℚ) / 100

/-- Python `str.strip()` on a list of characters: drop leading and trailing
whitespace.  (ASCII whitespace; Python also strips some further Unicode
space characters, which never occur in the strings this model parses.) -/
def pyStrip (cs : List Char) : List Char :=
  ((cs.dropWhile Char.isWhitespace).reverse.dropWhile Char.isWhitespace).reverse

/-- Python `int(s)` on a string (as characters): optional surrounding
whitespace, an optional sign, then a nonempty run of decimal digits;
anything else raises `ValueError`, modelled as `none`.  (Python additionally
allows underscore digit separators, which never appear in the version-id
strings this model parses.) -/
def pyParseInt (cs : List Char) : Option Int :=
  match pyStrip cs with
  | [] => none
  | c :: rest =>
    let (sign, digits) :=
      if c = '-' then ((-1 : Int), rest)
      else if c = '+' then ((1 : Int), rest)
      else ((1 : Int), c :: rest)
    if digits ≠ [] ∧ digits.all Char.isDigit then
      some (sign *
        ((digits.foldl (fun n ch => 10 * n + (ch.toNat - Char.toNat '0')) 0 : Nat) : Int))
    else none

/-- Python `s.split(sep)` for a one-character separator: splits at every
occurrence, keeping empty pieces (`"a__b" ↦ ["a", "", "b"]`, `"a" ↦ ["a"]`). -/
def pySplitOnChar (sep : Char) : List Char → List (List Char)
  | [] => [[]]
  | c :: cs =>
    if c = sep then [] :: pySplitOnChar sep cs
    else match pySplitOnChar sep cs with
      | [] => [[c]]
      | piece :: pieces => (c :: piece) :: pieces

/-- Python string comparison on character lists: lexicographic by code
point.  This is also how the core library orders `String`. -/
def charListLtb : List Char → List Char → Bool
  | [], [] => false
  | [], _ :: _ => true
  | _ :: _, [] => false
  | a :: as, b :: bs => if a < b then true else if b < a then false else charListLtb as bs

/-- Python `s < t` on strings. -/
def pyStrLtb (s t : String) : Bool := charListLtb s.data t.data

/-- The strict-less comparator on integers, as a Boolean function. -/
def intLtb (a b : ℤ) : Bool := decide (a < b)

/-- The strict-less comparator on rationals, as a Boolean function. -/
def ratLtb (a b : ℚ) : Bool := decide (a < b)

/-- Python `list(dict.fromkeys(l))`-style de-duplication keeping the first
occurrence of each element; also how `DataFrame.drop_duplicates()` (default
`keep='first'`) treats a list of rows. -/
def keepFirstOcc {α : Type} [DecidableEq α] : List α → List α :=
  go []
where
  go {α : Type} [DecidableEq α] (seen : List α) : List α → List α
  | [] => []
  | x :: xs => if x ∈ seen then go seen xs else x :: go (x :: seen) xs

/-! ## Python stable sorting (`sorted(..., key=f, reverse=True)`)

Python's sort is stable; with `reverse=True` it orders by key descending
while keeping elements with equal keys in their original relative order.
That function is modelled by a stable insertion sort, parameterized by a
Boolean strict-less comparator `lt` on keys. -/

/-- Insert `x` into a descending-sorted list, after every element with a key
not below its own (so an element inserted from the left of the original list
stays left of equal-keyed elements: stability). -/
def pyInsertDescBy {α κ : Type} (lt : κ → κ → Bool) (f : α → κ) (x : α) :
    List α → List α
  | [] => [x]
  | y :: ys => if lt (f x) (f y) then y :: pyInsertDescBy lt f x ys else x :: y :: ys

/-- Python `sorted(l, key=f, reverse=True)`: stable descending sort by key. -/
def pySortDescBy {α κ : Type} (lt : κ → κ → Bool) (f : α → κ) :
    List α → List α
  | [] => []
  | x :: xs => pyInsertDescBy lt f x (pySortDescBy lt f xs)

/-- Insert `x` into an ascending-sorted list, after every element with a key
not above its own (stability, as in `pyInsertDescBy`). -/
def pyInsertAscBy {α κ : Type} (lt : κ → κ → Bool) (f : α → κ) (x : α) :
    List α → List α
  | [] => [x]
  | y :: ys => if lt (f y) (f x) then y :: pyInsertAscBy lt f x ys else x :: y :: ys

/-- Python `sorted(l, key=f)`: stable ascending sort by key. -/
def pySortAscBy {α κ : Type} (lt : κ → κ → Bool) (f : α → κ) :
    List α → List α
  | [] => []
  | x :: xs => pyInsertAscBy lt f x (pySortAscBy lt f xs)

/-- The first element of `l` attaining the maximal key, if any: this is what
the head of a stable descending sort is. -/
def firstMaxBy {α κ : Type} (lt : κ → κ → Bool) (f : α → κ) :
    List α → Option α
  | [] => none
  | x :: xs =>
    match firstMaxBy lt f xs with
    | none => some x
    | some y => if lt (f x) (f y) then some y else some x

/-! ## QualityScorer (backend/app/utils/quality_scorer.py) -/

/-- The four weights stored by a constructed `QualityScorer`. -/
structure QualityScorer where
  missing_weight : ℚ
  duplicate_weight : ℚ
  outlier_weight : ℚ
  schema_weight : ℚ
deriving Repr, DecidableEq

/-- `QualityScorer.__init__`: store the caller's weights; if their total
departs from 100 by more than 0.01, renormalize each to `w / total * 100`.
When the total is exactly zero that renormalization divides by zero
(`ZeroDivisionError` in Python), modelled as `none`. -/
def QualityScorer.init (missing_weight duplicate_weight outlier_weight
    schema_weight : ℚ) : Option QualityScorer :=
  let total := missing_weight + duplicate_weight + outlier_weight + schema_weight
  if |total - 100| > 1/100 then
    if total = 0 then none
    else some
      { missing_weight := missing_weight / total * 100
        duplicate_weight := duplicate_weight / total * 100
        outlier_weight := outlier_weight / total * 100
        schema_weight := schema_weight / total * 100 }
  else some
    { missing_weight := missing_weight
      duplicate_weight := duplicate_weight
      outlier_weight := outlier_weight
      schema_weight := schema_weight }

/-- The field of the missing-value analysis block that `calculate_score`
reads (`missing_analysis.get('overall_missing_percentage', 0)`). -/
structure MissingScoreInput where
  overall_missing_percentage : ℚ
deriving Repr, DecidableEq

/-- The field of the duplicate analysis block that `calculate_score` reads
(`duplicate_analysis.get('duplicate_percentage', 0)`). -/
structure DuplicateScoreInput where
  duplicate_percentage : ℚ
deriving Repr, DecidableEq

/-- The field of the outlier analysis block that `calculate_score` reads
(`outlier_analysis.get('outlier_percentage', 0)`). -/
structure OutlierScoreInput where
  outlier_percentage : ℚ
deriving Repr, DecidableEq

/-- The fields of the optional schema-analysis block read by
`_calculate_schema_score`: `all_valid` (default `True`),
`len(inconsistencies)` and `total_columns` (default 1). -/
structure SchemaScoreInput where
  all_valid : Bool
  inconsistencies : ℕ
  total_columns : ℚ
deriving Repr, DecidableEq

/-- `QualityScorer._calculate_schema_score`.  (For `total_columns = 0` the
Python source would raise `ZeroDivisionError`; rational division by zero
yields 0 here.  No claim touches that input.) -/
def QualityScorer.calculateSchemaScore (s : SchemaScoreInput) : ℚ :=
  if s.all_valid then 100
  else max 0 ((s.total_columns - (s.inconsistencies : ℚ)) / s.total_columns * 100)

/-- `QualityScorer._get_grade`: fixed score cutoffs to a letter grade. -/
def QualityScorer.getGrade (score : ℚ) : String :=
  if score ≥ 90 then "Excellent"
  else if score ≥ 80 then "Very Good"
  else if score ≥ 70 then "Good"
  else if score ≥ 60 then "Fair"
  else if score ≥ 50 then "Poor"
  else "Critical"

/-- `QualityScorer._get_grade_emoji`: dictionary lookup with default. -/
def QualityScorer.getGradeEmoji (grade : String) : String :=
  if grade = "Excellent" then "🟢"
  else if grade = "Very Good" then "🟢"
  else if grade = "Good" then "🟡"
  else if grade = "Fair" then "🟠"
  else if grade = "Poor" then "🔴"
  else if grade = "Critical" then "🔴"
  else "⚪"

/-- One component of the score breakdown: raw score, weight, contribution. -/
structure ScoreBreakdownEntry where
  score : ℚ
  weight : ℚ
  contribution : ℚ
deriving Repr, DecidableEq

/-- The record returned by `calculate_score`. -/
structure ScoreResult where
  overall_score : ℚ
  grade : String
  grade_emoji : String
  missing_values : ScoreBreakdownEntry
  duplicates : ScoreBreakdownEntry
  outliers : ScoreBreakdownEntry
  schema_consistency : ScoreBreakdownEntry
deriving Repr, DecidableEq

/-- `QualityScorer.calculate_score`.  The source receives the three
analyzers' full result dictionaries and reads exactly one percentage from
each (captured by the `*ScoreInput` structures); `schema_analysis` is
optional, and a missing (`None`, or empty and hence falsy) block scores
schema consistency at 100. -/
def QualityScorer.calculateScore (s : QualityScorer)
    (missing_analysis : MissingScoreInput)
    (duplicate_analysis : DuplicateScoreInput)
    (outlier_analysis : OutlierScoreInput)
    (schema_analysis : Option SchemaScoreInput) : ScoreResult :=
  let missing_score := max 0 (100 - missing_analysis.overall_missing_percentage)
  let duplicate_score := max 0 (100 - duplicate_analysis.duplicate_percentage)
  let outlier_score := max 0 (100 - min outlier_analysis.outlier_percentage 100)
  let schema_score :=
    match schema_analysis with
    | some sa => QualityScorer.calculateSchemaScore sa
    | none => 100
  let overall_score :=
    missing_score * s.missing_weight / 100 +
    duplicate_score * s.duplicate_weight / 100 +
    outlier_score * s.outlier_weight / 100 +
    schema_score * s.schema_weight / 100
  let rounded := pyRound2 overall_score
  let grade := QualityScorer.getGrade rounded
  { overall_score := rounded
    grade := grade
    grade_emoji := QualityScorer.getGradeEmoji grade
    missing_values :=
      { score := pyRound2 missing_score
        weight := s.missing_weight
        contribution := pyRound2 (missing_score * s.missing_weight / 100) }
    duplicates :=
      { score := pyRound2 duplicate_score
        weight := s.duplicate_weight
        contribution := pyRound2 (duplicate_score * s.duplicate_weight / 100) }
    outliers :=
      { score := pyRound2 outlier_score
        weight := s.outlier_weight
        contribution := pyRound2 (outlier_score * s.outlier_weight / 100) }
    schema_consistency :=
      { score := pyRound2 schema_score
        weight := s.schema_weight
        contribution := pyRound2 (schema_score * s.schema_weight / 100) } }

/-! ## Tabular data model (pandas DataFrame)

A dataframe is a column-major table: named, dtype-tagged columns of cells,
plus an explicit row count (the index length, which is meaningful even for a
frame with no columns).  A missing cell (`NaN`/`None`) is `Option.none`. -/

/-- The pandas dtype classes the source distinguishes
(`is_numeric_dtype`, `is_object_dtype`/`is_categorical_dtype`,
`is_bool_dtype`, `is_datetime64_any_dtype`, anything else). -/
inductive Dtype
  | numeric
  | text
  | boolean
  | datetime
  | otherDtype
deriving DecidableEq, Repr

/-- A cell value.  (Python's numeric/bool conflation — `1 == True` — is not
modelled; no claim mixes value kinds inside one column.) -/
inductive Val
  | num (q : ℚ)
  | str (s : String)
  | boolean (b : Bool)
deriving DecidableEq, Repr

/-- A named, typed column of cells; `none` is a missing value. -/
structure Column where
  name : String
  dtype : Dtype
  cells : List (Option Val)
deriving DecidableEq, Repr

/-- A dataframe: a row count plus columns. -/
structure DataFrame where
  nrow : ℕ
  cols : List Column
deriving DecidableEq, Repr

/-- Well-formedness: every column has exactly `nrow` cells. -/
def DataFrame.Wf (df : DataFrame) : Prop :=
  ∀ c ∈ df.cols, c.cells.length = df.nrow

/-- `df.columns`: the column names in order. -/
def DataFrame.columns (df : DataFrame) : List String :=
  df.cols.map (fun c => c.name)

/-- Row `i` of the frame, as the list of its cells across columns. -/
def DataFrame.row (df : DataFrame) (i : ℕ) : List (Option Val) :=
  df.cols.map (fun c => c.cells.getD i none)

/-- All rows of the frame, in order. -/
def DataFrame.rowsList (df : DataFrame) : List (List (Option Val)) :=
  (List.range df.nrow).map df.row

/-- `df[names]`: select columns by name, in the order given.  (The source
only calls this with names known to be present.) -/
def DataFrame.selectCols (df : DataFrame) (names : List String) : DataFrame :=
  { nrow := df.nrow
    cols := names.filterMap (fun n => df.cols.find? (fun c => c.name = n)) }

/-- Keep exactly the rows whose indices are listed, in the listed order
(`df.loc`-style row filtering used by the duplicate/outlier removers). -/
def DataFrame.filterRowsByIdx (df : DataFrame) (idx : List ℕ) : DataFrame :=
  { nrow := idx.length
    cols := df.cols.map (fun c => { c with cells := idx.map (fun i => c.cells.getD i none) }) }

/-- The number of missing cells in a column (`df[col].isnull().sum()`). -/
def Column.missingCount (c : Column) : ℕ :=
  (c.cells.filter (fun cell => cell.isNone)).length

/-- The non-null numeric values of a column, in row order
(`df[col].dropna()` for a numeric-dtype column, whose non-null cells are all
numbers). -/
def Column.numericValues (c : Column) : List ℚ :=
  c.cells.filterMap (fun cell =>
    match cell with
    | some (Val.num q) => some q
    | _ => none)

/-! ## Shared numeric statistics (pandas semantics) -/

/-- Decides `abs(series.skew()) > 1`, the only use the source makes of
skewness.  pandas (`nanskew`) computes the adjusted Fisher-Pearson
coefficient `n·sqrt(n−1) / (n−2) · m3 / m2^1.5` from the raw centered
sums `m2 = Σ(x−mean)²`, `m3 = Σ(x−mean)³`; it returns `NaN` for `n < 3`
(`|NaN| > 1` is false) and `0` where `m2 == 0`.  Since the square root is
irrational the comparison is squared: for `m2 > 0`,
`|skew| > 1 ⟺ n²·(n−1)·m3² > (n−2)²·m2³`, an exact rational test. -/
def pandasAbsSkewGt1 (l : List ℚ) : Bool :=
  let n := l.length
  if n < 3 then false
  else
    let mean := l.sum / (n : ℚ)
    let m2 := (l.map (fun x => (x - mean) ^ 2)).sum
    let m3 := (l.map (fun x => (x - mean) ^ 3)).sum
    if m2 = 0 then false
    else decide ((n : ℚ) ^ 2 * ((n : ℚ) - 1) * m3 ^ 2 > ((n : ℚ) - 2) ^ 2 * m2 ^ 3)

/-- `series.quantile(q)` with pandas' default linear interpolation: with the
values sorted ascending and `h = q·(n−1)`, interpolate between the values at
positions `⌊h⌋` and `⌈h⌉`.  (On an empty series pandas yields `NaN`; all
call sites in the analysis paths guard non-emptiness.) -/
def pandasQuantile (data : List ℚ) (q : ℚ) : ℚ :=
  let s := pySortAscBy ratLtb id data
  let n := s.length
  let h : ℚ := q * ((n : ℚ) - 1)
  let lo : ℤ := ⌊h⌋
  let hi : ℤ := ⌈h⌉
  let vlo := s.getD lo.toNat 0
  let vhi := s.getD hi.toNat 0
  vlo + (h - (lo : ℚ)) * (vhi - vlo)

/-- The square of `series.std()` (pandas default `ddof=1`):
`Σ(x−mean)² / (n−1)`, and `none` (pandas `NaN`) for `n ≤ 1`.  The standard
deviation itself is the irrational square root of this, so it is carried
squared; `std == 0 ⟺ variance == 0` since the root is nonnegative. -/
def sampleVariance (l : List ℚ) : Option ℚ :=
  if l.length ≤ 1 then none
  else
    let mean := l.sum / (l.length : ℚ)
    some ((l.map (fun x => (x - mean) ^ 2)).sum / ((l.length : ℚ) - 1))

/-! ## MissingValueAnalyzer (backend/app/core/quality/missing_values.py) -/

/-- The two thresholds stored by `MissingValueAnalyzer.__init__`. -/
structure MissingValueAnalyzer where
  warn_threshold : ℚ
  error_threshold : ℚ
deriving Repr, DecidableEq

/-- One per-column entry of the missing-value detail list.  (`data_type` is
kept as the dtype itself; the source stores its string rendering.) -/
structure MissingDetail where
  column : String
  missing_count : ℕ
  missing_percentage : ℚ
  severity : String
  data_type : Dtype
  recommendation : String
deriving Repr, DecidableEq

/-- The summary block of the missing-value analysis. -/
structure MissingSummary where
  high_severity : ℕ
  medium_severity : ℕ
  low_severity : ℕ
  worst_column : Option String
  worst_percentage : ℚ
deriving Repr, DecidableEq

/-- The record returned by `MissingValueAnalyzer.analyze`. -/
structure MissingResult where
  total_missing : ℕ
  total_cells : ℕ
  overall_missing_percentage : ℚ
  columns_affected : ℕ
  columns_with_missing : List String
  details : List MissingDetail
  summary : MissingSummary
deriving Repr, DecidableEq

/-- `MissingValueAnalyzer._generate_recommendation`: type-directed
imputation hint, overridden by `drop_column` at or above the error
threshold. -/
def MissingValueAnalyzer.generateRecommendation (a : MissingValueAnalyzer)
    (c : Column) (percentage : ℚ) : String :=
  if percentage ≥ a.error_threshold then "drop_column"
  else
    match c.dtype with
    | Dtype.numeric =>
      let nonNull := c.numericValues
      if 0 < nonNull.length then
        if pandasAbsSkewGt1 nonNull then "impute_median" else "impute_mean"
      else "impute_median"
    | Dtype.text => "impute_mode"
    | Dtype.boolean => "impute_mode"
    | Dtype.datetime => "forward_fill"
    | Dtype.otherDtype => "investigate"

/-- The severity classification inlined in `analyze`. -/
def MissingValueAnalyzer.severityOf (a : MissingValueAnalyzer) (percentage : ℚ) : String :=
  if percentage ≥ a.error_threshold then "high"
  else if percentage ≥ a.warn_threshold then "medium"
  else "low"

/-- `MissingValueAnalyzer._generate_summary` over the (already sorted)
detail list. -/
def MissingValueAnalyzer.generateSummary (details : List MissingDetail) : MissingSummary :=
  match details with
  | [] =>
    { high_severity := 0, medium_severity := 0, low_severity := 0
      worst_column := none, worst_percentage := 0 }
  | worst :: _ =>
    { high_severity := (details.filter (fun d => d.severity = "high")).length
      medium_severity := (details.filter (fun d => d.severity = "medium")).length
      low_severity := (details.filter (fun d => d.severity = "low")).length
      worst_column := some worst.column
      worst_percentage := worst.missing_percentage }

/-- `MissingValueAnalyzer.analyze`.  Every pandas operation it performs
(`isnull`, `sum`, `dropna`, sorting a local Python list) returns a fresh
object and never writes the dataframe, so the dataframe state after the call
(second component) is the input frame.

The per-column percentage is `round(count / len(df) * 100, 2)`; when
`len(df) = 0` pandas produces `NaN` there, but such a column necessarily has
a zero missing count and never enters the detail list, so the value is never
read (rational division by zero yields 0 here).  The overall percentage is
explicitly guarded by the source: 0 when the frame has no cells. -/
def MissingValueAnalyzer.analyze (a : MissingValueAnalyzer) (df : DataFrame) :
    MissingResult × DataFrame :=
  let total_missing := (df.cols.map Column.missingCount).sum
  let total_cells := df.nrow * df.cols.length
  let overall :=
    if 0 < total_cells then pyRound2 ((total_missing : ℚ) / (total_cells : ℚ) * 100)
    else 0
  let columnsWithMissing := df.cols.filter (fun c => 0 < c.missingCount)
  let details := columnsWithMissing.map (fun c =>
    let count : ℕ := c.missingCount
    let percentage := pyRound2 ((count : ℚ) / (df.nrow : ℚ) * 100)
    { column := c.name
      missing_count := count
      missing_percentage := percentage
      severity := a.severityOf percentage
      data_type := c.dtype
      recommendation := a.generateRecommendation c percentage })
  let sortedDetails := pySortDescBy ratLtb (fun d => d.missing_percentage) details
  ({ total_missing := total_missing
     total_cells := total_cells
     overall_missing_percentage := overall
     columns_affected := columnsWithMissing.length
     columns_with_missing := columnsWithMissing.map (fun c => c.name)
     details := sortedDetails
     summary := MissingValueAnalyzer.generateSummary sortedDetails }, df)

/-- The record returned by `MissingValueAnalyzer.get_missing_patterns`. -/
structure MissingPatterns where
  rows_with_missing : ℕ
  rows_with_missing_percentage : ℚ
  rows_with_multiple_missing : ℕ
  completely_empty_rows : ℕ
  max_missing_per_row : ℕ
  avg_missing_per_row : ℚ
deriving Repr, DecidableEq

/-- `MissingValueAnalyzer.get_missing_patterns`.  The source computes
`int(missing_per_row.max())` with no emptiness guard: on a zero-row frame
the max of the empty per-row series is `NaN` and `int(NaN)` raises
`ValueError` (the percentage `rows_with_missing / len(df) * 100` would also
be `NaN = 0/0` there, never 0).  That reachable failure is the `Except.error`
branch. -/
def MissingValueAnalyzer.getMissingPatterns (df : DataFrame) :
    Except String MissingPatterns :=
  let perRow := df.rowsList.map (fun r => (r.filter (fun cell => cell.isNone)).length)
  if df.nrow = 0 then
    Except.error "ValueError: cannot convert float NaN to integer"
  else
    let rowsWithMissing := (perRow.filter (fun k => 0 < k)).length
    Except.ok
      { rows_with_missing := rowsWithMissing
        rows_with_missing_percentage :=
          pyRound2 ((rowsWithMissing : ℚ) / (df.nrow : ℚ) * 100)
        rows_with_multiple_missing := (perRow.filter (fun k => 1 < k)).length
        completely_empty_rows := (perRow.filter (fun k => k = df.cols.length)).length
        max_missing_per_row := perRow.foldl Nat.max 0
        avg_missing_per_row :=
          pyRound2 (((perRow.map (fun k => (k : ℚ))).sum) / (perRow.length : ℚ)) }

/-! ## DuplicateDetector (backend/app/core/quality/duplicates.py) -/

/-- A strict-less comparator on cell values, used only to order group keys
the way `groupby(sort=True)` does.  Within a single pandas column group keys
are homogeneous; across kinds the order is totalized arbitrarily (numbers,
then strings, then booleans). -/
def Val.ltb : Val → Val → Bool
  | Val.num a, Val.num b => decide (a < b)
  | Val.num _, _ => true
  | Val.str _, Val.num _ => false
  | Val.str a, Val.str b => charListLtb a.data b.data
  | Val.str _, Val.boolean _ => true
  | Val.boolean _, Val.num _ => false
  | Val.boolean _, Val.str _ => false
  | Val.boolean a, Val.boolean b => !a && b

/-- Comparator on cells (`none` ordered first; never reached on the group
keys actually sorted, which contain no missing values). -/
def cellLtb : Option Val → Option Val → Bool
  | none, none => false
  | none, some _ => true
  | some _, none => false
  | some a, some b => Val.ltb a b

/-- Lexicographic comparator on rows, for `groupby`'s sorted key order. -/
def rowLtb : List (Option Val) → List (Option Val) → Bool
  | [], [] => false
  | [], _ :: _ => true
  | _ :: _, [] => false
  | a :: as, b :: bs =>
    if cellLtb a b then true
    else if cellLtb b a then false
    else rowLtb as bs

/-- The configuration stored by `DuplicateDetector.__init__`.  `key_columns`
is `none` for Python `None`; Python truthiness also treats `some []` as
unset. -/
structure DuplicateDetector where
  check_full_row : Bool
  key_columns : Option (List String)
deriving Repr, DecidableEq

/-- `df.duplicated(keep=False)` marks a row iff some other row equals it:
the row value occurs at least twice.  (pandas treats `NaN` as equal to `NaN`
here, as does the `Option` equality.)  Returns the marked rows. -/
def dupMarkedRows (rows : List (List (Option Val))) : List (List (Option Val)) :=
  rows.filter (fun r => 2 ≤ rows.count r)

/-- One sample duplicate group: its occurrence count and up to 3 rows. -/
structure DuplicateGroupSample where
  count : ℕ
  rows : List (List (Option Val))
deriving Repr, DecidableEq

/-- `DuplicateDetector._get_sample_duplicates`: group the `keep=False`
duplicates by full row value and report the first `limit` groups of size
`> 1` (occurrence count, up to 3 rows).  `groupby` iterates groups in
ascending key order and, by default (`dropna=True`), skips keys containing a
missing value.  (Python's set/group order on mixed-kind keys is totalized by
`rowLtb`.) -/
def getSampleDuplicates (df : DataFrame) (limit : ℕ) : List DuplicateGroupSample :=
  let duplicates := dupMarkedRows df.rowsList
  if duplicates.isEmpty then []
  else
    let keys := pySortAscBy rowLtb id
      (keepFirstOcc (duplicates.filter (fun r => r.all (fun cell => cell.isSome))))
    let groups := keys.map (fun k => duplicates.filter (fun r => r = k))
    ((groups.filter (fun g => 1 < g.length)).take limit).map (fun g =>
      { count := g.length, rows := g.take 3 })

/-- The key-column analysis block (`_analyze_key_duplicates`). -/
structure KeyAnalysis where
  columns : List String
  duplicate_count : ℕ
  duplicate_percentage : ℚ
  unique_combinations : ℕ
deriving Repr, DecidableEq

/-- `DuplicateDetector._analyze_key_duplicates`: duplicates over the
projection to the key columns.  The percentage has no zero-row guard in the
source (`NaN` from numpy `0/0` on an empty frame; rational division by zero
yields 0 here — no claim reads it). -/
def DuplicateDetector.analyzeKeyDuplicates
    (df : DataFrame) (ks : List String) : KeyAnalysis :=
  let sub := df.selectCols ks
  let cnt := (dupMarkedRows sub.rowsList).length
  { columns := ks
    duplicate_count := cnt
    duplicate_percentage := pyRound2 ((cnt : ℚ) / (df.nrow : ℚ) * 100)
    unique_combinations := (keepFirstOcc sub.rowsList).length }

/-- The record returned by `DuplicateDetector.analyze`. -/
structure DuplicateResult where
  total_rows : ℕ
  total_duplicates : ℕ
  duplicate_percentage : ℚ
  duplicate_groups : ℕ
  unique_rows : ℤ
  check_full_row : Bool
  key_columns : Option (List String)
  key_analysis : Option KeyAnalysis
  sample_duplicates : List DuplicateGroupSample
  recommendation : String
  severity : String
deriving Repr, DecidableEq

/-- `DuplicateDetector._generate_recommendation`. -/
def DuplicateDetector.generateRecommendation (duplicate_percentage : ℚ) : String :=
  if duplicate_percentage = 0 then "no_action"
  else if duplicate_percentage < 1 then "keep_first"
  else if duplicate_percentage < 5 then "review_and_remove"
  else if duplicate_percentage < 20 then "investigate_cause"
  else "major_issue_investigate"

/-- `DuplicateDetector._get_severity`. -/
def DuplicateDetector.getSeverity (duplicate_percentage : ℚ) : String :=
  if duplicate_percentage = 0 then "none"
  else if duplicate_percentage < 1 then "low"
  else if duplicate_percentage < 5 then "medium"
  else "high"

/-- `DuplicateDetector.analyze`.  All pandas operations used (`duplicated`,
`drop_duplicates` without `inplace`, `groupby`) return fresh objects, so the
dataframe state after the call (second component) is the input frame. -/
def DuplicateDetector.analyze (d : DuplicateDetector) (df : DataFrame) :
    DuplicateResult × DataFrame :=
  let total_rows := df.nrow
  let (duplicate_count, duplicate_percentage, duplicate_groups, sample_duplicates) :=
    if d.check_full_row then
      let marked := dupMarkedRows df.rowsList
      let cnt := marked.length
      let pct := if 0 < total_rows then pyRound2 ((cnt : ℚ) / (total_rows : ℚ) * 100) else 0
      let groups := if 0 < cnt then (keepFirstOcc marked).length else 0
      (cnt, pct, groups, getSampleDuplicates df 5)
    else (0, 0, 0, [])
  let key_analysis :=
    match d.key_columns with
    | some ks =>
      if ks ≠ [] ∧ ks.all (fun k => df.columns.contains k) then
        some (DuplicateDetector.analyzeKeyDuplicates df ks)
      else none
    | none => none
  ({ total_rows := total_rows
     total_duplicates := duplicate_count
     duplicate_percentage := duplicate_percentage
     duplicate_groups := duplicate_groups
     unique_rows := (total_rows : ℤ) - (duplicate_count : ℤ)
     check_full_row := d.check_full_row
     key_columns := d.key_columns
     key_analysis := key_analysis
     sample_duplicates := sample_duplicates
     recommendation := DuplicateDetector.generateRecommendation duplicate_percentage
     severity := DuplicateDetector.getSeverity duplicate_percentage }, df)

/-- The `keep` argument of `duplicated`/`drop_duplicates`: `'first'`,
`'last'`, or `False`. -/
inductive KeepPolicy
  | first
  | last
  | noneKept
deriving Repr, DecidableEq

/-- The row indices kept by `drop_duplicates(keep=...)` over the given
(projected) row values: keep a row's first occurrence, last occurrence, or
only rows that occur once. -/
def keptIndices (rows : List (List (Option Val))) (keep : KeepPolicy) : List ℕ :=
  (List.range rows.length).filter (fun i =>
    let r := rows.getD i []
    match keep with
    | KeepPolicy.first => !(rows.take i).contains r
    | KeepPolicy.last => !(rows.drop (i + 1)).contains r
    | KeepPolicy.noneKept => rows.count r = 1)

/-- `DuplicateDetector.remove_duplicates`: drop duplicates on the full row
(when `check_full_row`), else on the key-column projection (when
`key_columns` is truthy), else return the frame unchanged.  Returns
`(result, dataframe state after the call)`: with `inplace=True` pandas
mutates the frame and the state is the dropped frame; otherwise the state is
the input frame. -/
def DuplicateDetector.removeDuplicates (d : DuplicateDetector) (df : DataFrame)
    (keep : KeepPolicy) (inplace : Bool) : DataFrame × DataFrame :=
  let dropped :=
    if d.check_full_row then
      df.filterRowsByIdx (keptIndices df.rowsList keep)
    else
      match d.key_columns with
      | some ks =>
        if ks ≠ [] then df.filterRowsByIdx (keptIndices (df.selectCols ks).rowsList keep)
        else df
      | none => df
  if inplace then (dropped, dropped) else (dropped, df)

/-! ## OutlierDetector (backend/app/core/quality/outliers.py) -/

/-- The configuration stored by `OutlierDetector.__init__`.  The constructor
performs no validation: any method string is stored unchanged. -/
structure OutlierDetector where
  method : String
  iqr_multiplier : ℚ
  z_score_threshold : ℚ
  use_isolation_forest : Bool
deriving Repr, DecidableEq

/-- `OutlierDetector.__init__`: store the four configuration values.  There
is no check of `method` against the supported set. -/
def OutlierDetector.init (method : String) (iqr_multiplier z_score_threshold : ℚ)
    (use_isolation_forest : Bool) : OutlierDetector :=
  { method := method
    iqr_multiplier := iqr_multiplier
    z_score_threshold := z_score_threshold
    use_isolation_forest := use_isolation_forest }

/-- The dictionary returned by `_detect_iqr_outliers`. -/
structure IqrOutlierRes where
  mask : List Bool
  count : ℕ
  values : List ℚ
  lower_bound : ℚ
  upper_bound : ℚ
deriving Repr, DecidableEq

/-- The dictionary returned by `_detect_zscore_outliers` (no bounds). -/
structure ZscoreOutlierRes where
  mask : List Bool
  count : ℕ
  values : List ℚ
deriving Repr, DecidableEq

/-- `OutlierDetector._detect_iqr_outliers`: flag values outside
`[Q1 − k·IQR, Q3 + k·IQR]`. -/
def OutlierDetector.detectIqrOutliers (o : OutlierDetector) (data : List ℚ) :
    IqrOutlierRes :=
  let q1 := pandasQuantile data (1/4)
  let q3 := pandasQuantile data (3/4)
  let iqr := q3 - q1
  let lower := q1 - o.iqr_multiplier * iqr
  let upper := q3 + o.iqr_multiplier * iqr
  let isOut := fun x => decide (x < lower) || decide (upper < x)
  { mask := data.map isOut
    count := (data.filter isOut).length
    values := data.filter isOut
    lower_bound := lower
    upper_bound := upper }

/-- `OutlierDetector._detect_zscore_outliers`: guard `std == 0` (constant
column) with an all-false mask; with 0 or 1 values `std` is `NaN`, every
z-score is `NaN` and `NaN > threshold` is false, so nothing is flagged
either.  Otherwise flag `|x − mean| / std > t`, expressed without the
irrational `std = √variance` as `t < 0 ∨ (x − mean)² > t²·variance` (for
`std > 0` and `t ≥ 0` these agree since both sides of the original
comparison are nonnegative; for `t < 0` every nonnegative z-score exceeds
`t`). -/
def OutlierDetector.detectZscoreOutliers (o : OutlierDetector) (data : List ℚ) :
    ZscoreOutlierRes :=
  let mean := data.sum / (data.length : ℚ)
  match sampleVariance data with
  | none =>
    { mask := data.map (fun _ => false), count := 0, values := [] }
  | some v =>
    if v = 0 then
      { mask := data.map (fun _ => false), count := 0, values := [] }
    else
      let isOut := fun x =>
        decide (o.z_score_threshold < 0) ||
        decide ((x - mean) ^ 2 > o.z_score_threshold ^ 2 * v)
      { mask := data.map isOut
        count := (data.filter isOut).length
        values := data.filter isOut }

/-- The descriptive statistics block of a per-column result.  `std_squared`
carries the square of the reported standard deviation (see
`sampleVariance`); `none` is pandas `NaN`. -/
structure ColumnStats where
  mean : ℚ
  median : ℚ
  std_squared : Option ℚ
  min : ℚ
  max : ℚ
  q1 : ℚ
  q3 : ℚ
deriving Repr, DecidableEq

/-- The statistics `_analyze_column` reports for the non-null data of a
column.  (Only called with non-empty data; the empty case is unreachable and
filled with zeros where pandas would produce `NaN`.) -/
def columnStats (data : List ℚ) : ColumnStats :=
  match data with
  | [] => { mean := 0, median := 0, std_squared := none, min := 0, max := 0, q1 := 0, q3 := 0 }
  | x :: xs =>
    { mean := data.sum / (data.length : ℚ)
      median := pandasQuantile data (1/2)
      std_squared := sampleVariance data
      min := xs.foldl Min.min x
      max := xs.foldl Max.max x
      q1 := pandasQuantile data (1/4)
      q3 := pandasQuantile data (3/4) }

/-- `OutlierDetector._generate_recommendation`. -/
def OutlierDetector.generateRecommendation (outlier_percentage : ℚ)
    (data : List ℚ) : String :=
  if outlier_percentage = 0 then "no_action"
  else if outlier_percentage < 1 then "investigate"
  else if outlier_percentage < 5 then
    if pandasAbsSkewGt1 data then "transform_log" else "winsorize"
  else if outlier_percentage < 10 then "clip_bounds"
  else "investigate_data_quality"

/-- `OutlierDetector._get_severity`. -/
def OutlierDetector.getSeverity (outlier_percentage : ℚ) : String :=
  if outlier_percentage = 0 then "none"
  else if outlier_percentage < 1 then "low"
  else if outlier_percentage < 5 then "medium"
  else "high"

/-- The per-column record returned by `_analyze_column`. -/
structure ColumnOutlierResult where
  column : String
  method : String
  outlier_count : ℕ
  total_values : ℕ
  outlier_percentage : ℚ
  lower_bound : Option ℚ
  upper_bound : Option ℚ
  sample_outliers : List ℚ
  statistics : ColumnStats
  recommendation : String
  severity : String
deriving Repr, DecidableEq

/-- Assembles the record `_analyze_column` returns once the method branch
has produced the outlier count/values and (optional) bounds.
`sample_outliers` is `list(set(sorted(v)[:5] + sorted(v, reverse=True)[:5]))[:10]`;
Python's set-iteration order is implementation-defined and modelled as
first-occurrence de-duplication. -/
def OutlierDetector.buildColumnResult (o : OutlierDetector) (column : String)
    (data : List ℚ) (outlier_count : ℕ) (outlier_values : List ℚ)
    (lower upper : Option ℚ) : ColumnOutlierResult :=
  let pct := pyRound2 ((outlier_count : ℚ) / (data.length : ℚ) * 100)
  { column := column
    method := o.method
    outlier_count := outlier_count
    total_values := data.length
    outlier_percentage := pct
    lower_bound := lower
    upper_bound := upper
    sample_outliers :=
      (keepFirstOcc ((pySortAscBy ratLtb id outlier_values).take 5 ++
        (pySortDescBy ratLtb id outlier_values).take 5)).take 10
    statistics := columnStats data
    recommendation := OutlierDetector.generateRecommendation pct data
    severity := OutlierDetector.getSeverity pct }

/-- `OutlierDetector._analyze_column`.  `df[column]` on an absent column
raises `KeyError`; empty non-null data returns Python `None` (`ok none`).
The method dispatch computes the IQR result only for `method ∈ {iqr, both}`
and the z-score result only for `method ∈ {z_score, both}`, then branches on
`== 'both'`, `== 'iqr'`, else the z-score branch: for any other method
string both intermediate results are Python `None` and the z-score branch
subscripts `None`, raising `TypeError` inside the per-column analysis. -/
def OutlierDetector.analyzeColumn (o : OutlierDetector) (df : DataFrame)
    (column : String) : Except String (Option ColumnOutlierResult) :=
  match df.cols.find? (fun c => c.name = column) with
  | none => Except.error "KeyError"
  | some c =>
    let data := c.numericValues
    if data.isEmpty then Except.ok none
    else
      let iqrRes : Option IqrOutlierRes :=
        if o.method = "iqr" ∨ o.method = "both" then some (o.detectIqrOutliers data)
        else none
      let zRes : Option ZscoreOutlierRes :=
        if o.method = "z_score" ∨ o.method = "both" then some (o.detectZscoreOutliers data)
        else none
      if o.method = "both" then
        match iqrRes, zRes with
        | some i, some z =>
          let mask := i.mask.zipWith (fun a b => a || b) z.mask
          let values := ((data.zip mask).filter (fun p => p.2)).map (fun p => p.1)
          Except.ok (some (o.buildColumnResult c.name data
            (mask.count true) values (some i.lower_bound) (some i.upper_bound)))
        | _, _ => Except.error "TypeError: NoneType object is not subscriptable"
      else if o.method = "iqr" then
        match iqrRes with
        | some i =>
          Except.ok (some (o.buildColumnResult c.name data
            i.count i.values (some i.lower_bound) (some i.upper_bound)))
        | none => Except.error "TypeError: NoneType object is not subscriptable"
      else
        match zRes with
        | some z =>
          Except.ok (some (o.buildColumnResult c.name data
            z.count z.values none none))
        | none => Except.error "TypeError: NoneType object is not subscriptable"

/-- Outcome of the optional multivariate step.  Modelled from the spec: the
source's `_isolation_forest_detection` runs sklearn's randomized
`IsolationForest` (contamination 0.1, fixed seed); its numeric scores are
floating-point model output and are abstracted to a marker.  The reachable
shape is kept: fewer than 10 rows with no missing numeric value yields the
soft error dictionary, otherwise a fitted report.  The step reads the
numeric sub-table and never writes the dataframe. -/
inductive IsoOutcome
  | insufficientData
  | report
deriving Repr, DecidableEq

/-- The reachable shape of `_isolation_forest_detection` (see
`IsoOutcome`). -/
def isolationForestOutcome (df : DataFrame) (numericCols : List Column) : IsoOutcome :=
  let completeRows :=
    ((DataFrame.mk df.nrow numericCols).rowsList.filter
      (fun r => r.all (fun cell => cell.isSome))).length
  if completeRows < 10 then IsoOutcome.insufficientData else IsoOutcome.report

/-- The record returned by `OutlierDetector.analyze`.  The
no-numeric-columns early return omits `total_numeric_values`,
`columns_analyzed` and `multivariate`; the absent keys are `none`. -/
structure OutlierResult where
  total_outliers : ℕ
  total_numeric_values : Option ℕ
  outlier_percentage : ℚ
  columns_analyzed : Option ℕ
  columns_with_outliers : List String
  details : List ColumnOutlierResult
  method : String
  multivariate : Option IsoOutcome
deriving Repr, DecidableEq

/-- The per-column loop of `analyze`: run `_analyze_column` on each numeric
column, skip columns with no data, propagate the first raised error. -/
def OutlierDetector.analyzeColumns (o : OutlierDetector) (df : DataFrame) :
    List Column → Except String (List ColumnOutlierResult)
  | [] => Except.ok []
  | c :: cs =>
    match o.analyzeColumn df c.name with
    | Except.error e => Except.error e
    | Except.ok none => o.analyzeColumns df cs
    | Except.ok (some r) => (o.analyzeColumns df cs).map (fun rs => r :: rs)

/-- `OutlierDetector.analyze`.  Numeric columns are selected by dtype
(`select_dtypes(include=[np.number])`); with none, the early zero result is
returned.  All operations (`dropna`, quantiles, the optional isolation
forest's `fit_predict`) read but never write the dataframe, so the dataframe
state after the call (second component) is the input frame — also when an
exception propagates. -/
def OutlierDetector.analyze (o : OutlierDetector) (df : DataFrame) :
    Except String OutlierResult × DataFrame :=
  let numericCols := df.cols.filter (fun c => c.dtype = Dtype.numeric)
  if numericCols.isEmpty then
    (Except.ok
      { total_outliers := 0
        total_numeric_values := none
        outlier_percentage := 0
        columns_analyzed := none
        columns_with_outliers := []
        details := []
        method := o.method
        multivariate := none }, df)
  else
    match o.analyzeColumns df numericCols with
    | Except.error e => (Except.error e, df)
    | Except.ok details =>
      let total_outliers := (details.map (fun d => d.outlier_count)).sum
      let total_values := df.nrow * numericCols.length
      let pct :=
        if 0 < total_values then pyRound2 ((total_outliers : ℚ) / (total_values : ℚ) * 100)
        else 0
      (Except.ok
        { total_outliers := total_outliers
          total_numeric_values := some total_values
          outlier_percentage := pct
          columns_analyzed := some numericCols.length
          columns_with_outliers :=
            (details.filter (fun d => 0 < d.outlier_count)).map (fun d => d.column)
          details := details
          method := o.method
          multivariate :=
            if o.use_isolation_forest ∧ 1 < numericCols.length then
              some (isolationForestOutcome df numericCols)
            else none }, df)

/-- `OutlierDetector.get_outlier_bounds` for the IQR path
(`method ∈ {iqr, both}`).  On the pure z-score path the source returns
`mean ± t·std`, an irrational pair not representable in `ℚ`; that path (and
a missing column, `KeyError`) is `none`.  The claims exercise the IQR path
only. -/
def OutlierDetector.getOutlierBounds (o : OutlierDetector) (df : DataFrame)
    (column : String) : Option (ℚ × ℚ) :=
  match df.cols.find? (fun c => c.name = column) with
  | none => none
  | some c =>
    if o.method = "iqr" ∨ o.method = "both" then
      let data := c.numericValues
      let q1 := pandasQuantile data (1/4)
      let q3 := pandasQuantile data (3/4)
      let iqr := q3 - q1
      some (q1 - o.iqr_multiplier * iqr, q3 + o.iqr_multiplier * iqr)
    else none

/-- The numeric value of a cell, if any. -/
def cellNum : Option Val → Option ℚ
  | some (Val.num q) => some q
  | _ => none

/-- `OutlierDetector.remove_outliers` (IQR path; see
`getOutlierBounds`): drop rows whose value lies outside the bounds.
With `inplace=True` the source drops the rows matching
`(x < lower) | (x > upper)` — `NaN` compares false and is kept; without
`inplace` it keeps rows matching `(x >= lower) & (x <= upper)` — `NaN`
compares false and is dropped.  Returns `(result, dataframe state after the
call)`. -/
def OutlierDetector.removeOutliers (o : OutlierDetector) (df : DataFrame)
    (column : String) (inplace : Bool) : Option (DataFrame × DataFrame) :=
  (o.getOutlierBounds df column).map (fun bounds =>
    let cellsOf := fun (i : ℕ) =>
      (df.cols.find? (fun c => c.name = column)).bind (fun c => cellNum (c.cells.getD i none))
    if inplace then
      let kept := (List.range df.nrow).filter (fun i =>
        match cellsOf i with
        | some x => !(decide (x < bounds.1) || decide (bounds.2 < x))
        | none => true)
      (df.filterRowsByIdx kept, df.filterRowsByIdx kept)
    else
      let kept := (List.range df.nrow).filter (fun i =>
        match cellsOf i with
        | some x => decide (bounds.1 ≤ x) && decide (x ≤ bounds.2)
        | none => false)
      (df.filterRowsByIdx kept, df))

/-- Replace the cells of the named column. -/
def DataFrame.mapCol (df : DataFrame) (name : String)
    (f : Option Val → Option Val) : DataFrame :=
  { df with cols := df.cols.map (fun c =>
      if c.name = name then { c with cells := c.cells.map f } else c) }

/-- `OutlierDetector.clip_outliers` (IQR path; see `getOutlierBounds`):
clamp the column's numeric values into the bounds (`Series.clip`; missing
values stay missing).  Returns `(result, dataframe state after the call)`:
with `inplace=True` the column assignment mutates the frame. -/
def OutlierDetector.clipOutliers (o : OutlierDetector) (df : DataFrame)
    (column : String) (inplace : Bool) : Option (DataFrame × DataFrame) :=
  (o.getOutlierBounds df column).map (fun bounds =>
    let clipped := df.mapCol column (fun cell =>
      match cell with
      | some (Val.num x) => some (Val.num (max bounds.1 (min x bounds.2)))
      | other => other)
    if inplace then (clipped, clipped) else (clipped, df))

/-! ## VersioningManager (backend/app/utils/versioning.py)

The baseline store is modelled as the list of metadata records the manager
would read back from its directory, in filesystem enumeration (`glob`)
order.  Only the fields the verified operations touch are carried. -/

/-- The dataset metadata embedded in a baseline record (`source_metadata`)
and supplied as `current_metadata` to comparisons: the fields read by
`compare_with_baseline` (`rows`, `columns`, `column_names`, `dtypes`). -/
structure SourceMeta where
  rows : ℤ
  columns : ℤ
  column_names : List String
  dtypes : List (String × String)
deriving Repr, DecidableEq

/-- A stored baseline metadata record (the fields the verified operations
read). -/
structure BaselineRecord where
  version_id : String
  version_number : ℤ
  created_at : String
  source_metadata : SourceMeta
deriving Repr, DecidableEq

/-- `VersioningManager.list_baseline_versions`: read every metadata record
(the input list, in enumeration order) and sort by `created_at` descending
(newest first; ISO timestamp strings compare lexicographically). -/
def listBaselineVersions (store : List BaselineRecord) : List BaselineRecord :=
  pySortDescBy pyStrLtb (fun r => r.created_at) store

/-- `VersioningManager.get_latest_baseline`: list the records (sorted by
creation date), re-sort by `version_number` descending and return the first,
or `none` when the store is empty. -/
def getLatestBaseline (store : List BaselineRecord) : Option BaselineRecord :=
  (pySortDescBy intLtb (fun r => r.version_number) (listBaselineVersions store)).head?

/-- `VersioningManager.get_baseline_by_version`: direct lookup of the
metadata record for a version id; `none` when absent. -/
def getBaselineByVersion (store : List BaselineRecord) (version_id : String) :
    Option BaselineRecord :=
  store.find? (fun r => r.version_id = version_id)

/-- The numeric component of a version id:
`int(version_id.split('_')[1].replace('v', ''))`
(`"baseline_v1_20250421" ↦ 1`).  A missing second piece (`IndexError`) or a
failed `int` conversion (`ValueError`) is `none` — skipped by the caller.
`replace('v', '')` on the one-character pattern removes every `v`. -/
def parseVersionComponent (version_id : String) : Option ℤ :=
  match (pySplitOnChar (Char.ofNat 95) version_id.data).get? 1 with
  | none => none
  | some piece => pyParseInt (piece.filter (fun ch => ch ≠ Char.ofNat 118))

/-- Python `max(l, default=0)`: the maximum of a non-empty list, else 0. -/
def pyMaxDefault0 : List ℤ → ℤ
  | [] => 0
  | n :: ns => ns.foldl max n

/-- `VersioningManager.get_next_version_number`: 1 on an empty store,
otherwise `max(parsed numeric components, default=0) + 1`, records whose
version id fails to parse being skipped. -/
def getNextVersionNumber (store : List BaselineRecord) : ℤ :=
  let existing := listBaselineVersions store
  if existing.isEmpty then 1
  else
    pyMaxDefault0 (existing.filterMap (fun r => parseVersionComponent r.version_id)) + 1

/-- One dtype mismatch entry of a comparison report. -/
structure DtypeChange where
  column : String
  baseline_dtype : Option String
  current_dtype : Option String
deriving Repr, DecidableEq

/-- A field-level difference entry of `compare_with_baseline`. -/
inductive FieldDifference
  | rowsDiff (baseline current change : ℤ) (change_percentage : Option ℚ)
  | columnsDiff (baseline current change : ℤ)
  | columnSchemaDiff (missing_columns extra_columns : List String)
  | dataTypesDiff (changes : List DtypeChange)
deriving Repr, DecidableEq

/-- Python `dict.get(k)` on the string-to-string dtype mapping. -/
def lookupStr (m : List (String × String)) (k : String) : Option String :=
  (m.find? (fun p => p.1 = k)).map (fun p => p.2)

/-- The field-by-field comparison loop of `compare_with_baseline`: one
difference entry per field that differs — row count (signed delta, with a
percentage only when the baseline had rows), column count (signed delta),
column-name set difference, and dtype mismatches over the shared columns.
Python's set-iteration order is implementation-defined; set differences and
the shared-column loop are modelled in first-occurrence order of the
respective name lists. -/
def compareMetadata (baseline current : SourceMeta) : List FieldDifference :=
  let rowsDiffs :=
    if current.rows ≠ baseline.rows then
      [FieldDifference.rowsDiff baseline.rows current.rows (current.rows - baseline.rows)
        (if 0 < baseline.rows then
          some (pyRound2 (((current.rows - baseline.rows : ℤ) : ℚ) / (baseline.rows : ℚ) * 100))
        else none)]
    else []
  let colsDiffs :=
    if current.columns ≠ baseline.columns then
      [FieldDifference.columnsDiff baseline.columns current.columns
        (current.columns - baseline.columns)]
    else []
  let missing := (keepFirstOcc baseline.column_names).filter
    (fun n => !current.column_names.contains n)
  let extra := (keepFirstOcc current.column_names).filter
    (fun n => !baseline.column_names.contains n)
  let schemaDiffs :=
    if missing ≠ [] ∨ extra ≠ [] then [FieldDifference.columnSchemaDiff missing extra]
    else []
  let shared := (keepFirstOcc current.column_names).filter
    (fun n => baseline.column_names.contains n)
  let dtypeChanges := shared.filterMap (fun colName =>
    if lookupStr current.dtypes colName ≠ lookupStr baseline.dtypes colName then
      some { column := colName
             baseline_dtype := lookupStr baseline.dtypes colName
             current_dtype := lookupStr current.dtypes colName }
    else none)
  let dtypeDiffs :=
    if dtypeChanges ≠ [] then [FieldDifference.dataTypesDiff dtypeChanges] else []
  rowsDiffs ++ colsDiffs ++ schemaDiffs ++ dtypeDiffs

/-- The report returned by `compare_with_baseline`: the no-baseline
dictionary, or the baseline version id with the difference list.  (The
wall-clock `comparison_timestamp` is not modelled.) -/
inductive ComparisonReport
  | noBaseline
  | report (baseline_version : String) (differences : List FieldDifference)
deriving Repr, DecidableEq

/-- `VersioningManager.compare_with_baseline`: resolve the baseline (by
explicit version id, else the latest), then diff its embedded
`source_metadata` against the current metadata. -/
def compareWithBaseline (store : List BaselineRecord)
    (current_metadata : SourceMeta) (baseline_version_id : Option String) :
    ComparisonReport :=
  let baseline_info :=
    match baseline_version_id with
    | some vid => getBaselineByVersion store vid
    | none => getLatestBaseline store
  match baseline_info with
  | none => ComparisonReport.noBaseline
  | some info =>
    ComparisonReport.report info.version_id
      (compareMetadata info.source_metadata current_metadata)

/-- A minimal metadata record used by concrete evaluation inputs. -/
def emptyMeta : SourceMeta := ⟨0, 0, [], []⟩

/-- Concrete store with simulated clock skew: version 3 was created before
version 2. -/
def skewStore : List BaselineRecord :=
  [⟨"baseline_v1_a", 1, "2025-01-01T00:00:00", emptyMeta⟩,
   ⟨"baseline_v2_a", 2, "2025-01-05T00:00:00", emptyMeta⟩,
   ⟨"baseline_v3_a", 3, "2025-01-03T00:00:00", emptyMeta⟩]

/-- Concrete store with two records tying on the maximal version number 2
and different creation timestamps. -/
def tieStore : List BaselineRecord :=
  [⟨"baseline_v2_a", 2, "2025-01-01T00:00:00", emptyMeta⟩,
   ⟨"baseline_v1_c", 1, "2025-01-03T00:00:00", emptyMeta⟩,
   ⟨"baseline_v2_b", 2, "2025-01-02T00:00:00", emptyMeta⟩]

/-- The record of `tieStore` with the later timestamp among the tied
maximal-version records. -/
def tieNewest : BaselineRecord := ⟨"baseline_v2_b", 2, "2025-01-02T00:00:00", emptyMeta⟩

/-- Concrete store whose parsable version ids carry the numeric components
`{1, 3}`, plus one malformed id. -/
def gapStore : List BaselineRecord :=
  [⟨"baseline_v1_20250421", 1, "2025-04-21T09:00:00", emptyMeta⟩,
   ⟨"baseline_v3_20250423", 3, "2025-04-23T09:00:00", emptyMeta⟩,
   ⟨"corrupted-version-id", 0, "2025-04-22T09:00:00", emptyMeta⟩]

/-- A record whose version id has no parsable numeric component. -/
def malformedRec : BaselineRecord :=
  ⟨"corrupted-version-id", 0, "2025-04-22T09:00:00", emptyMeta⟩

/-- A well-formed singleton-store record. -/
def plainRec : BaselineRecord :=
  ⟨"baseline_v1_20250421", 1, "2025-04-21T09:00:00", emptyMeta⟩

/-- A zero-row, one-column frame (the failing input for the zero-row
pattern analysis). -/
def zeroRowDf : DataFrame := ⟨0, [⟨"a", Dtype.numeric, []⟩]⟩

/-- A numeric column with the two values 1 and 2. -/
def twoNumCol : Column := ⟨"x", Dtype.numeric, [some (Val.num 1), some (Val.num 2)]⟩

/-- A frame holding `twoNumCol`. -/
def twoNumDf : DataFrame := ⟨2, [twoNumCol]⟩

/-- A constant-valued numeric column (all cells 5). -/
def constCol : Column :=
  ⟨"x", Dtype.numeric, [some (Val.num 5), some (Val.num 5), some (Val.num 5)]⟩

/-- A frame holding `constCol`. -/
def constDf : DataFrame := ⟨3, [constCol]⟩

/-- A frame with two identical rows (a duplicate pair). -/
def dupPairDf : DataFrame :=
  ⟨2, [⟨"n", Dtype.text, [some (Val.str "x"), some (Val.str "x")]⟩]⟩

/-! ## Lemmas about the stable sort model -/

section SortLemmas

variable {α κ : Type} (lt : κ → κ → Bool) (f : α → κ)

theorem mem_pyInsertDescBy (x a : α) (l : List α) :
    a ∈ pyInsertDescBy lt f x l ↔ a = x ∨ a ∈ l := by
  induction l with
  | nil => simp [pyInsertDescBy]
  | cons y ys ih =>
    simp only [pyInsertDescBy]
    split
    · simp only [List.mem_cons, ih]
      tauto
    · simp only [List.mem_cons]

theorem pyInsertDescBy_perm (x : α) (l : List α) :
    (pyInsertDescBy lt f x l).Perm (x :: l) := by
  induction l with
  | nil => simp [pyInsertDescBy]
  | cons y ys ih =>
    simp only [pyInsertDescBy]
    split
    · exact (ih.cons y).trans (List.Perm.swap x y ys)
    · exact List.Perm.refl _

theorem pySortDescBy_perm (l : List α) : (pySortDescBy lt f l).Perm l := by
  induction l with
  | nil => exact List.Perm.refl _
  | cons x xs ih =>
    exact (pyInsertDescBy_perm lt f x (pySortDescBy lt f xs)).trans (ih.cons x)

theorem mem_pySortDescBy (a : α) (l : List α) :
    a ∈ pySortDescBy lt f l ↔ a ∈ l :=
  (pySortDescBy_perm lt f l).mem_iff

theorem head?_pyInsertDescBy (x : α) (l : List α) :
    (pyInsertDescBy lt f x l).head? =
      some (l.head?.elim x (fun y => if lt (f x) (f y) then y else x)) := by
  cases l with
  | nil => rfl
  | cons y ys =>
    by_cases hlt : lt (f x) (f y) = true
    · simp [pyInsertDescBy, hlt]
    · simp [pyInsertDescBy, hlt]

theorem head?_pySortDescBy (l : List α) :
    (pySortDescBy lt f l).head? = firstMaxBy lt f l := by
  induction l with
  | nil => rfl
  | cons x xs ih =>
    simp only [pySortDescBy, firstMaxBy,
      head?_pyInsertDescBy lt f x (pySortDescBy lt f xs), ih]
    cases firstMaxBy lt f xs with
    | none => rfl
    | some y =>
      simp only [Option.elim_some]
      split <;> rfl

theorem firstMaxBy_eq_none (l : List α) :
    firstMaxBy lt f l = none ↔ l = [] := by
  cases l with
  | nil => simp [firstMaxBy]
  | cons x xs =>
    cases hfm : firstMaxBy lt f xs with
    | none => simp [firstMaxBy, hfm]
    | some y =>
      simp only [firstMaxBy, hfm]
      split <;> simp

theorem firstMaxBy_mem {l : List α} {r : α} (h : firstMaxBy lt f l = some r) :
    r ∈ l := by
  induction l with
  | nil => simp [firstMaxBy] at h
  | cons x xs ih =>
    cases hfm : firstMaxBy lt f xs with
    | none =>
      simp only [firstMaxBy, hfm, Option.some.injEq] at h
      simp [← h]
    | some y =>
      simp only [firstMaxBy, hfm] at h
      by_cases hlt : lt (f x) (f y) = true
      · rw [if_pos hlt] at h
        simp only [Option.some.injEq] at h
        subst h
        exact List.mem_cons_of_mem x (ih hfm)
      · rw [if_neg hlt] at h
        simp only [Option.some.injEq] at h
        simp [← h]

theorem firstMaxBy_max
    (hasymm : ∀ a b, lt a b = true → lt b a = false)
    (hnegtrans : ∀ a b c, lt a b = false → lt b c = false → lt a c = false)
    (l : List α) :
    ∀ r : α, firstMaxBy lt f l = some r → ∀ x ∈ l, lt (f r) (f x) = false := by
  have hirrefl : ∀ a, lt a a = false := by
    intro a
    cases hc : lt a a with
    | false => rfl
    | true => exact absurd (hasymm a a hc) (by simp [hc])
  induction l with
  | nil => intro r h; simp [firstMaxBy] at h
  | cons x xs ih =>
    intro r h
    cases hfm : firstMaxBy lt f xs with
    | none =>
      simp only [firstMaxBy, hfm, Option.some.injEq] at h
      subst h
      rw [(firstMaxBy_eq_none lt f xs).mp hfm]
      intro z hz
      rcases List.mem_singleton.mp hz with rfl
      exact hirrefl _
    | some y =>
      simp only [firstMaxBy, hfm] at h
      by_cases hlt : lt (f x) (f y) = true
      · rw [if_pos hlt] at h
        simp only [Option.some.injEq] at h
        subst h
        intro z hz
        rcases List.mem_cons.mp hz with rfl | hz
        · exact hasymm _ _ hlt
        · exact ih y hfm z hz
      · rw [if_neg hlt] at h
        simp only [Option.some.injEq] at h
        subst h
        intro z hz
        rcases List.mem_cons.mp hz with rfl | hz
        · exact hirrefl _
        · exact hnegtrans _ _ _ (Bool.not_eq_true _ ▸ hlt) (ih y hfm z hz)

theorem pairwise_pyInsertDescBy
    (hasymm : ∀ a b, lt a b = true → lt b a = false)
    (hnegtrans : ∀ a b c, lt a b = false → lt b c = false → lt a c = false)
    (x : α) {l : List α}
    (hl : l.Pairwise (fun a b => lt (f a) (f b) = false)) :
    (pyInsertDescBy lt f x l).Pairwise (fun a b => lt (f a) (f b) = false) := by
  induction l with
  | nil => simp [pyInsertDescBy]
  | cons y ys ih =>
    rcases List.pairwise_cons.mp hl with ⟨hy, hys⟩
    simp only [pyInsertDescBy]
    by_cases hlt : lt (f x) (f y) = true
    · rw [if_pos hlt]
      refine List.pairwise_cons.mpr ⟨?_, ih hys⟩
      intro z hz
      rcases (mem_pyInsertDescBy lt f x z ys).mp hz with rfl | hz
      · exact hasymm _ _ hlt
      · exact hy z hz
    · rw [if_neg hlt]
      refine List.pairwise_cons.mpr ⟨?_, hl⟩
      intro z hz
      rcases List.mem_cons.mp hz with rfl | hz
      · exact Bool.not_eq_true _ ▸ hlt
      · exact hnegtrans _ _ _ (Bool.not_eq_true _ ▸ hlt) (hy z hz)

theorem pairwise_pySortDescBy
    (hasymm : ∀ a b, lt a b = true → lt b a = false)
    (hnegtrans : ∀ a b c, lt a b = false → lt b c = false → lt a c = false)
    (l : List α) :
    (pySortDescBy lt f l).Pairwise (fun a b => lt (f a) (f b) = false) := by
  induction l with
  | nil => simp [pySortDescBy]
  | cons x xs ih =>
    exact pairwise_pyInsertDescBy lt f hasymm hnegtrans x ih

theorem firstMaxBy_tiebreak {β : Type} (g : α → β) (glt : β → β → Bool)
    (hltirrefl : ∀ a, lt a a = false)
    (hgirrefl : ∀ b, glt b b = false)
    {l : List α}
    (hpair : l.Pairwise (fun a b => glt (g a) (g b) = false))
    {r : α} (h : firstMaxBy lt f l = some r) :
    ∀ x ∈ l, f x = f r → glt (g r) (g x) = false := by
  induction l with
  | nil => simp [firstMaxBy] at h
  | cons y ys ih =>
    rcases List.pairwise_cons.mp hpair with ⟨hy, hys⟩
    cases hfm : firstMaxBy lt f ys with
    | none =>
      simp only [firstMaxBy, hfm, Option.some.injEq] at h
      subst h
      rw [(firstMaxBy_eq_none lt f ys).mp hfm]
      intro x hx _
      rcases List.mem_singleton.mp hx with rfl
      exact hgirrefl _
    | some z =>
      simp only [firstMaxBy, hfm] at h
      by_cases hlt : lt (f y) (f z) = true
      · rw [if_pos hlt] at h
        simp only [Option.some.injEq] at h
        subst h
        intro x hx hfx
        rcases List.mem_cons.mp hx with rfl | hx
        · rw [hfx] at hlt
          rw [hltirrefl] at hlt
          exact absurd hlt (by simp)
        · exact ih hys hfm x hx hfx
      · rw [if_neg hlt] at h
        simp only [Option.some.injEq] at h
        subst h
        intro x hx _
        rcases List.mem_cons.mp hx with rfl | hx
        · exact hgirrefl _
        · exact hy x hx

end SortLemmas

/-! ## Comparator properties -/

theorem intLtb_asymm : ∀ a b : ℤ, intLtb a b = true → intLtb b a = false := by
  intro a b h
  simp only [intLtb, decide_eq_true_eq] at h
  simp only [intLtb, decide_eq_false_iff_not]
  omega

theorem intLtb_negtrans :
    ∀ a b c : ℤ, intLtb a b = false → intLtb b c = false → intLtb a c = false := by
  intro a b c h1 h2
  simp only [intLtb, decide_eq_false_iff_not] at h1 h2 ⊢
  omega

theorem intLtb_irrefl : ∀ a : ℤ, intLtb a a = false := by
  intro a
  simp [intLtb]

theorem charListLtb_irrefl : ∀ x : List Char, charListLtb x x = false := by
  intro x
  induction x with
  | nil => rfl
  | cons a as ih => simp [charListLtb, lt_self_iff_false, ih]

theorem charListLtb_asymm :
    ∀ x y : List Char, charListLtb x y = true → charListLtb y x = false := by
  intro x
  induction x with
  | nil =>
    intro y h
    cases y with
    | nil => exact absurd h (by simp [charListLtb])
    | cons b bs => rfl
  | cons a as ih =>
    intro y h
    cases y with
    | nil => exact absurd h (by simp [charListLtb])
    | cons b bs =>
      simp only [charListLtb] at h ⊢
      by_cases hab : a < b
      · have hba : ¬ b < a := lt_asymm hab
        simp [hab, hba]
      · by_cases hba : b < a
        · simp [hab, hba] at h
        · simp only [hab, hba, if_false] at h
          simp only [hab, hba, if_false]
          exact ih bs h

theorem charListLtb_negtrans :
    ∀ x y z : List Char,
      charListLtb x y = false → charListLtb y z = false → charListLtb x z = false := by
  intro x
  induction x with
  | nil =>
    intro y z h1 h2
    cases y with
    | nil => exact h2
    | cons b bs => exact absurd h1 (by simp [charListLtb])
  | cons a as ih =>
    intro y z h1 h2
    cases y with
    | nil =>
      cases z with
      | nil => rfl
      | cons c cs => exact absurd h2 (by simp [charListLtb])
    | cons b bs =>
      cases z with
      | nil => rfl
      | cons c cs =>
        simp only [charListLtb] at h1 h2 ⊢
        by_cases hab : a < b
        · simp [hab] at h1
        · by_cases hbc : b < c
          · simp [hbc] at h2
          · have hba : b ≤ a := le_of_not_lt hab
            have hcb : c ≤ b := le_of_not_lt hbc
            have hac : ¬ a < c := not_lt.mpr (le_trans hcb hba)
            by_cases hca : c < a
            · simp [hac, hca]
            · have hba2 : ¬ b < a := by
                intro hba3
                exact hca (lt_of_le_of_lt hcb hba3)
              have hcb2 : ¬ c < b := by
                intro hcb3
                exact hca (lt_of_lt_of_le hcb3 hba)
              simp only [hab, hba2, if_false] at h1
              simp only [hbc, hcb2, if_false] at h2
              simp only [hac, hca, if_false]
              exact ih bs cs h1 h2

theorem pyStrLtb_irrefl : ∀ s : String, pyStrLtb s s = false :=
  fun s => charListLtb_irrefl s.data

theorem pyStrLtb_asymm : ∀ s t : String, pyStrLtb s t = true → pyStrLtb t s = false :=
  fun s t h => charListLtb_asymm s.data t.data h

theorem pyStrLtb_negtrans :
    ∀ s t u : String, pyStrLtb s t = false → pyStrLtb t u = false → pyStrLtb s u = false :=
  fun s t u h1 h2 => charListLtb_negtrans s.data t.data u.data h1 h2

/-! ## Lemmas about Python `max(l, default=0)` -/

theorem foldlMax_mem (n : ℤ) (ns : List ℤ) : ns.foldl max n ∈ n :: ns := by
  induction ns generalizing n with
  | nil => simp
  | cons c cs ih =>
    simp only [List.foldl_cons]
    rcases List.mem_cons.mp (ih (max n c)) with h | h
    · rcases max_choice n c with hm | hm
      · rw [h, hm]; simp
      · rw [h, hm]; simp
    · simp [h]

theorem le_foldlMax (n : ℤ) (ns : List ℤ) : ∀ x ∈ n :: ns, x ≤ ns.foldl max n := by
  induction ns generalizing n with
  | nil =>
    intro x hx
    rcases List.mem_singleton.mp hx with rfl
    simp
  | cons c cs ih =>
    intro x hx
    simp only [List.foldl_cons]
    rcases List.mem_cons.mp hx with rfl | hx
    · exact le_trans (le_max_left x c) (ih (max x c) _ (List.mem_cons_self _ _))
    · rcases List.mem_cons.mp hx with rfl | hx
      · exact le_trans (le_max_right n x) (ih (max n x) _ (List.mem_cons_self _ _))
      · exact ih (max n c) x (List.mem_cons_of_mem _ hx)

theorem pyMaxDefault0_perm {l l' : List ℤ} (h : l.Perm l') :
    pyMaxDefault0 l = pyMaxDefault0 l' := by
  cases l with
  | nil =>
    have h0 : l' = [] := List.Perm.eq_nil h.symm
    rw [h0]
  | cons n ns =>
    cases l' with
    | nil => exact absurd (List.Perm.eq_nil h) (by simp)
    | cons m ms =>
      have h1 : ns.foldl max n ∈ m :: ms := h.mem_iff.mp (foldlMax_mem n ns)
      have h2 : ms.foldl max m ∈ n :: ns := h.mem_iff.mpr (foldlMax_mem m ms)
      have le1 : ns.foldl max n ≤ ms.foldl max m := le_foldlMax m ms _ h1
      have le2 : ms.foldl max m ≤ ns.foldl max n := le_foldlMax n ns _ h2
      simpa [pyMaxDefault0] using le_antisymm le1 le2

/-! ## Claim theorems: versioning -/

/-- C3: for every non-empty store of baseline records, `get_latest_baseline`
returns a stored record whose `version_number` is maximal — ordering is by
version number, never by `created_at` timestamp (the statement quantifies
over all stores, in particular those where a lower-version record has a
strictly later timestamp). -/
theorem c3_latest_is_max_version (store : List BaselineRecord) (hne : store ≠ []) :
    ∃ r, getLatestBaseline store = some r ∧ r ∈ store ∧
      ∀ x ∈ store, x.version_number ≤ r.version_number := by
  have hhead : getLatestBaseline store =
      firstMaxBy intLtb (fun r => r.version_number) (listBaselineVersions store) :=
    head?_pySortDescBy _ _ _
  have hperm : (listBaselineVersions store).Perm store := pySortDescBy_perm _ _ _
  have hne2 : listBaselineVersions store ≠ [] := by
    intro h0
    exact hne (List.Perm.eq_nil ((h0 ▸ hperm : ([] : List BaselineRecord).Perm store)).symm)
  obtain ⟨r, hr⟩ : ∃ r,
      firstMaxBy intLtb (fun r => r.version_number) (listBaselineVersions store) = some r := by
    cases hfm : firstMaxBy intLtb (fun r => r.version_number) (listBaselineVersions store) with
    | none => exact absurd ((firstMaxBy_eq_none _ _ _).mp hfm) hne2
    | some r => exact ⟨r, rfl⟩
  refine ⟨r, hhead.trans hr, hperm.mem_iff.mp (firstMaxBy_mem _ _ hr), ?_⟩
  intro x hx
  have hmax := firstMaxBy_max intLtb (fun r => r.version_number)
    intLtb_asymm intLtb_negtrans (listBaselineVersions store) r hr x (hperm.mem_iff.mpr hx)
  have hnotlt : ¬ (r.version_number < x.version_number) := by
    simpa [intLtb] using hmax
  exact le_of_not_lt hnotlt

/-- C3 witness: three baselines with simulated clock skew (version 3 was
created before version 2); the latest is still the one with version
number 3. -/
theorem c3_latest_is_max_version_witness :
    ∃ r, getLatestBaseline skewStore = some r ∧ r ∈ skewStore ∧
      ∀ x ∈ skewStore, x.version_number ≤ r.version_number :=
  c3_latest_is_max_version skewStore (by simp [skewStore])

/-- C10: whenever `get_latest_baseline` returns a record, that record has a
maximal `version_number`, and among the records tying on that maximal
version number none has a strictly later `created_at` string: the
`created_at`-descending pre-sort of `list_baseline_versions` followed by the
stable `version_number` sort makes the returned record the newest among the
tied ones (`pyStrLtb r.created_at x.created_at = false` says `x`'s timestamp
does not exceed `r`'s). -/
theorem c10_latest_tiebreak_by_created_at (store : List BaselineRecord)
    (r : BaselineRecord) (h : getLatestBaseline store = some r) :
    r ∈ store ∧ (∀ x ∈ store, x.version_number ≤ r.version_number) ∧
      ∀ x ∈ store, x.version_number = r.version_number →
        pyStrLtb r.created_at x.created_at = false := by
  have hhead : getLatestBaseline store =
      firstMaxBy intLtb (fun r => r.version_number) (listBaselineVersions store) :=
    head?_pySortDescBy _ _ _
  have hr : firstMaxBy intLtb (fun r => r.version_number) (listBaselineVersions store)
      = some r := hhead.symm.trans h
  have hperm : (listBaselineVersions store).Perm store := pySortDescBy_perm _ _ _
  refine ⟨hperm.mem_iff.mp (firstMaxBy_mem _ _ hr), ?_, ?_⟩
  · intro x hx
    have hmax := firstMaxBy_max intLtb (fun r => r.version_number)
      intLtb_asymm intLtb_negtrans (listBaselineVersions store) r hr x (hperm.mem_iff.mpr hx)
    have hnotlt : ¬ (r.version_number < x.version_number) := by
      simpa [intLtb] using hmax
    exact le_of_not_lt hnotlt
  · intro x hx hver
    have hpair : (listBaselineVersions store).Pairwise
        (fun a b => pyStrLtb a.created_at b.created_at = false) :=
      pairwise_pySortDescBy pyStrLtb (fun r => r.created_at)
        pyStrLtb_asymm pyStrLtb_negtrans store
    exact firstMaxBy_tiebreak intLtb (fun r => r.version_number)
      (fun r => r.created_at) pyStrLtb intLtb_irrefl pyStrLtb_irrefl
      hpair hr x (hperm.mem_iff.mpr hx) hver

/-- C10 witness: two records tie on the maximal version number 2; the
returned one is the one with the later `created_at`. -/
theorem c10_latest_tiebreak_by_created_at_witness :
    tieNewest ∈ tieStore ∧
      (∀ x ∈ tieStore, x.version_number ≤ tieNewest.version_number) ∧
      ∀ x ∈ tieStore, x.version_number = tieNewest.version_number →
        pyStrLtb tieNewest.created_at x.created_at = false :=
  c10_latest_tiebreak_by_created_at tieStore tieNewest (by decide)

/-- C8: `get_next_version_number` returns 1 on an empty store; with stored
version ids whose numeric components are `{1, 3}` plus a malformed id it
returns 4 (max-plus-one over the parsed components); and prepending any
record whose version id does not parse leaves the result unchanged
(malformed/foreign ids are skipped, never a failure). -/
theorem c8_next_version_number :
    getNextVersionNumber [] = 1 ∧
    getNextVersionNumber gapStore = 4 ∧
    ∀ (store : List BaselineRecord) (r : BaselineRecord),
      parseVersionComponent r.version_id = none →
      getNextVersionNumber (r :: store) = getNextVersionNumber store := by
  refine ⟨by decide, by decide, ?_⟩
  intro store r hparse
  by_cases hs : store = []
  · subst hs
    simp [getNextVersionNumber, listBaselineVersions, pySortDescBy, pyInsertDescBy,
      hparse, pyMaxDefault0]
  · have hpermc : (listBaselineVersions (r :: store)).Perm (r :: store) :=
      pySortDescBy_perm _ _ _
    have hperms : (listBaselineVersions store).Perm store := pySortDescBy_perm _ _ _
    have hne1 : (listBaselineVersions (r :: store)).isEmpty = false := by
      have : listBaselineVersions (r :: store) ≠ [] := by
        intro h0
        exact absurd (List.Perm.eq_nil
          ((h0 ▸ hpermc : ([] : List BaselineRecord).Perm (r :: store))).symm) (by simp)
      simpa [List.isEmpty_iff] using this
    have hne2 : (listBaselineVersions store).isEmpty = false := by
      have : listBaselineVersions store ≠ [] := by
        intro h0
        exact hs (List.Perm.eq_nil ((h0 ▸ hperms : ([] : List BaselineRecord).Perm store)).symm)
      simpa [List.isEmpty_iff] using this
    simp only [getNextVersionNumber, hne1, hne2, Bool.false_eq_true, if_false]
    have hstep :
        ((listBaselineVersions (r :: store)).filterMap
            (fun x => parseVersionComponent x.version_id)).Perm
          ((listBaselineVersions store).filterMap
            (fun x => parseVersionComponent x.version_id)) := by
      refine (hpermc.filterMap _).trans ?_
      have hcons : (r :: store).filterMap (fun x => parseVersionComponent x.version_id)
          = store.filterMap (fun x => parseVersionComponent x.version_id) := by
        simp [List.filterMap_cons, hparse]
      rw [hcons]
      exact (hperms.filterMap _).symm
    rw [pyMaxDefault0_perm hstep]

/-- C8 witness: instantiates the skip-invariance part at a malformed
record. -/
theorem c8_next_version_number_witness :
    getNextVersionNumber (malformedRec :: [plainRec]) = getNextVersionNumber [plainRec] :=
  c8_next_version_number.2.2 [plainRec] malformedRec (by decide)

/-- C7: comparing a baseline with column names `{a, b, c}` against current
metadata with column names `{a, b, d}` — equal row counts, equal column
counts, and matching dtypes on the shared columns — produces exactly one
difference entry, of field `column_schema`, with `missing_columns = [c]` and
`extra_columns = [d]`; no entry is emitted for the matching fields. -/
theorem c7_compare_schema_only (rec : BaselineRecord) (cur : SourceMeta)
    (hrows : cur.rows = rec.source_metadata.rows)
    (hcols : cur.columns = rec.source_metadata.columns)
    (hbase : rec.source_metadata.column_names = ["a", "b", "c"])
    (hcur : cur.column_names = ["a", "b", "d"])
    (hda : lookupStr cur.dtypes "a" = lookupStr rec.source_metadata.dtypes "a")
    (hdb : lookupStr cur.dtypes "b" = lookupStr rec.source_metadata.dtypes "b") :
    compareWithBaseline [rec] cur none =
      ComparisonReport.report rec.version_id
        [FieldDifference.columnSchemaDiff ["c"] ["d"]] := by
  have hlatest : getLatestBaseline [rec] = some rec := by
    simp [getLatestBaseline, listBaselineVersions, pySortDescBy, pyInsertDescBy]
  simp only [compareWithBaseline, hlatest]
  have hdiff : compareMetadata rec.source_metadata cur =
      [FieldDifference.columnSchemaDiff ["c"] ["d"]] := by
    simp [compareMetadata, hrows, hcols, hbase, hcur, hda, hdb,
      keepFirstOcc, keepFirstOcc.go]
  rw [hdiff]

/-- C7 witness: concrete baseline/current metadata with the schema
difference and no other. -/
theorem c7_compare_schema_only_witness :
    compareWithBaseline
        [⟨"baseline_v1_20250421", 1, "2025-04-21T09:00:00",
          ⟨5, 3, ["a", "b", "c"], [("a", "int64"), ("b", "float64"), ("c", "object")]⟩⟩]
        ⟨5, 3, ["a", "b", "d"], [("a", "int64"), ("b", "float64"), ("d", "object")]⟩
        none =
      ComparisonReport.report "baseline_v1_20250421"
        [FieldDifference.columnSchemaDiff ["c"] ["d"]] :=
  c7_compare_schema_only _ _ (by decide) (by decide) (by decide) (by decide)
    (by decide) (by decide)

/-! ## Claim theorems: quality scorer -/

/-- C1 counterexample: the claim quantifies over every caller-supplied
weight quadruple, but for the all-zero quadruple construction does not store
any weights at all — the renormalization divides by the zero total
(`ZeroDivisionError`), so no stored weights summing to 100 exist. -/
theorem c1_counterexample_zero_total :
    ¬ ∃ s : QualityScorer, QualityScorer.init 0 0 0 0 = some s ∧
      |s.missing_weight + s.duplicate_weight + s.outlier_weight + s.schema_weight - 100|
        ≤ 1/100 := by
  have h0 : QualityScorer.init 0 0 0 0 = none := by
    norm_num [QualityScorer.init]
  rintro ⟨s, hs, -⟩
  rw [h0] at hs
  exact Option.noConfusion hs

/-- C1 (amended): for every weight quadruple whose total is nonzero —
construction raises `ZeroDivisionError` on a zero total — the constructed
scorer stores four weights summing to 100 within 0.01: weights already
within tolerance are kept, all others are renormalized to a total of exactly
100. -/
theorem c1_weights_renormalized (mw dw ow sw : ℚ) (h : mw + dw + ow + sw ≠ 0) :
    ∃ s : QualityScorer, QualityScorer.init mw dw ow sw = some s ∧
      |s.missing_weight + s.duplicate_weight + s.outlier_weight + s.schema_weight - 100|
        ≤ 1/100 := by
  unfold QualityScorer.init
  by_cases htol : |mw + dw + ow + sw - 100| > 1/100
  · rw [if_pos htol, if_neg h]
    refine ⟨_, rfl, ?_⟩
    have hsum : mw / (mw + dw + ow + sw) * 100 + dw / (mw + dw + ow + sw) * 100 +
        ow / (mw + dw + ow + sw) * 100 + sw / (mw + dw + ow + sw) * 100 = 100 := by
      field_simp
      ring
    simp only [hsum]
    norm_num
  · rw [if_neg htol]
    exact ⟨_, rfl, le_of_not_lt htol⟩

/-- C1 witness: the quadruple 40/40/40/40 (total 160) is renormalized to a
sum within 0.01 of 100. -/
theorem c1_weights_renormalized_witness :
    ∃ s : QualityScorer, QualityScorer.init 40 40 40 40 = some s ∧
      |s.missing_weight + s.duplicate_weight + s.outlier_weight + s.schema_weight - 100|
        ≤ 1/100 :=
  c1_weights_renormalized 40 40 40 40 (by norm_num)

/-- C6: with all three issue percentages 0 and no schema block, the
default-weight scorer returns overall score 100.00 and grade "Excellent";
and the grade is exactly the fixed-cutoff classification of the score
(≥90 Excellent, ≥80 Very Good, ≥70 Good, ≥60 Fair, ≥50 Poor, else
Critical). -/
theorem c6_perfect_score_and_grade_cutoffs :
    (∃ s : QualityScorer, QualityScorer.init 30 25 25 20 = some s ∧
      (QualityScorer.calculateScore s ⟨0⟩ ⟨0⟩ ⟨0⟩ none).overall_score = 100 ∧
      (QualityScorer.calculateScore s ⟨0⟩ ⟨0⟩ ⟨0⟩ none).grade = "Excellent") ∧
    ∀ sc : ℚ,
      (QualityScorer.getGrade sc = "Excellent" ↔ 90 ≤ sc) ∧
      (QualityScorer.getGrade sc = "Very Good" ↔ 80 ≤ sc ∧ sc < 90) ∧
      (QualityScorer.getGrade sc = "Good" ↔ 70 ≤ sc ∧ sc < 80) ∧
      (QualityScorer.getGrade sc = "Fair" ↔ 60 ≤ sc ∧ sc < 70) ∧
      (QualityScorer.getGrade sc = "Poor" ↔ 50 ≤ sc ∧ sc < 60) ∧
      (QualityScorer.getGrade sc = "Critical" ↔ sc < 50) := by
  constructor
  · refine ⟨⟨30, 25, 25, 20⟩, ?_, ?_, ?_⟩
    · norm_num [QualityScorer.init]
    · norm_num [QualityScorer.calculateScore, pyRound2, roundHalfEven,
        QualityScorer.getGrade]
    · norm_num [QualityScorer.calculateScore, pyRound2, roundHalfEven,
        QualityScorer.getGrade]
  · intro sc
    unfold QualityScorer.getGrade
    refine ⟨?_, ?_, ?_, ?_, ?_, ?_⟩ <;>
      · split_ifs <;> simp_all <;> intros <;> linarith

/-! ## Claim theorems: missing values, outliers, frame effects -/

/-- C4: on every zero-row dataset `analyze` is guarded — its overall missing
percentage is 0 and no division error occurs — but `get_missing_patterns`
raises (`int` of the `NaN` max of the empty per-row series is a
`ValueError`) instead of returning percentage fields defaulted to 0: the
code contradicts the specified zero-row behavior for the patterns
operation. -/
theorem c4_zero_row_behavior (a : MissingValueAnalyzer) (df : DataFrame)
    (h : df.nrow = 0) :
    (a.analyze df).1.overall_missing_percentage = 0 ∧
    MissingValueAnalyzer.getMissingPatterns df =
      Except.error "ValueError: cannot convert float NaN to integer" := by
  constructor
  · simp [MissingValueAnalyzer.analyze, h]
  · simp [MissingValueAnalyzer.getMissingPatterns, h]

/-- C4 witness: the zero-row one-column frame. -/
theorem c4_zero_row_behavior_witness :
    (MissingValueAnalyzer.analyze ⟨10, 50⟩ zeroRowDf).1.overall_missing_percentage = 0 ∧
    MissingValueAnalyzer.getMissingPatterns zeroRowDf =
      Except.error "ValueError: cannot convert float NaN to integer" :=
  c4_zero_row_behavior ⟨10, 50⟩ zeroRowDf rfl

/-- C2 counterexample: the unsupported method string "median" is not
rejected at construction — the constructor stores it unchanged — and the
failure instead surfaces deep inside the per-column analysis (the z-score
fallback branch subscripts Python `None`). -/
theorem c2_counterexample_no_rejection_at_init :
    (OutlierDetector.init "median" (3/2) 3 false).method = "median" ∧
    OutlierDetector.analyzeColumn (OutlierDetector.init "median" (3/2) 3 false)
        twoNumDf "x" =
      Except.error "TypeError: NoneType object is not subscriptable" :=
  ⟨rfl, by decide⟩

/-- C2 (amended): `OutlierDetector.__init__` accepts and stores every method
string; for any method outside `{iqr, z_score, both}` the per-column
analysis fails (it falls into the z-score branch with a `None` intermediate
result, a `TypeError`) on every column with at least one non-null numeric
value. -/
theorem c2_unsupported_method_fails_in_analysis (m : String) (k t : ℚ)
    (df : DataFrame) (c : Column)
    (h1 : m ≠ "iqr") (h2 : m ≠ "z_score") (h3 : m ≠ "both")
    (hfind : df.cols.find? (fun col => col.name = c.name) = some c)
    (hdata : c.numericValues ≠ []) :
    (OutlierDetector.init m k t false).method = m ∧
    OutlierDetector.analyzeColumn (OutlierDetector.init m k t false) df c.name =
      Except.error "TypeError: NoneType object is not subscriptable" := by
  refine ⟨rfl, ?_⟩
  have hempty : c.numericValues.isEmpty = false := by
    simpa [List.isEmpty_iff] using hdata
  simp [OutlierDetector.analyzeColumn, OutlierDetector.init, hfind, hempty,
    h1, h2, h3]

/-- C2 witness: instantiates the amended claim at method "median" and a
two-value numeric column. -/
theorem c2_unsupported_method_fails_in_analysis_witness :
    (OutlierDetector.init "median" 1 4 false).method = "median" ∧
    OutlierDetector.analyzeColumn (OutlierDetector.init "median" 1 4 false)
        twoNumDf twoNumCol.name =
      Except.error "TypeError: NoneType object is not subscriptable" :=
  c2_unsupported_method_fails_in_analysis "median" 1 4 twoNumDf twoNumCol
    (by decide) (by decide) (by decide) (by decide) (by decide)

/-- The sum of a constant list. -/
theorem list_sum_const (l : List ℚ) (a : ℚ) (h : ∀ x ∈ l, x = a) :
    l.sum = l.length * a := by
  induction l with
  | nil => simp
  | cons x xs ih =>
    have hx : x = a := h x (List.mem_cons_self x xs)
    have hxs : xs.sum = xs.length * a := ih (fun y hy => h y (List.mem_cons_of_mem x hy))
    simp only [List.sum_cons, List.length_cons, hx, hxs]
    push_cast
    ring

/-- On a constant list the z-score detector reports no outliers: with at
most one value the standard deviation is `NaN` (nothing flagged), otherwise
the variance is exactly 0 and the `std == 0` guard fires. -/
theorem detectZscore_const (o : OutlierDetector) (data : List ℚ) (a : ℚ)
    (h : ∀ x ∈ data, x = a) :
    (o.detectZscoreOutliers data).count = 0 ∧
      (o.detectZscoreOutliers data).values = [] := by
  unfold OutlierDetector.detectZscoreOutliers
  cases hv : sampleVariance data with
  | none => simp
  | some v =>
    have hlen : ¬ data.length ≤ 1 := by
      by_contra hle
      simp [sampleVariance, hle] at hv
    have hlen0 : (data.length : ℚ) ≠ 0 := by
      exact_mod_cast (by omega : data.length ≠ 0)
    have hmean : data.sum / (data.length : ℚ) = a := by
      rw [list_sum_const data a h]
      field_simp
    have hnum : (data.map (fun x => (x - data.sum / (data.length : ℚ)) ^ 2)).sum = 0 := by
      apply List.sum_eq_zero
      intro y hy
      rcases List.mem_map.mp hy with ⟨x, hx, rfl⟩
      rw [hmean, h x hx]
      ring
    have hv0 : v = 0 := by
      simp only [sampleVariance, hlen, if_neg, if_false] at hv
      rw [hnum] at hv
      simpa using hv.symm
    simp [hv0]

/-- C5: for a stored column of all-equal non-null numeric values, the
z-score analysis of that column succeeds (never raises — the division by the
zero standard deviation is guarded) and reports zero outliers. -/
theorem c5_zscore_constant_column (k t : ℚ) (df : DataFrame) (colName : String)
    (c : Column)
    (hfind : df.cols.find? (fun col => col.name = colName) = some c)
    (hne : c.numericValues ≠ [])
    (hconst : ∀ x ∈ c.numericValues, ∀ y ∈ c.numericValues, x = y) :
    ∃ res, OutlierDetector.analyzeColumn (OutlierDetector.init "z_score" k t false)
        df colName = Except.ok (some res) ∧ res.outlier_count = 0 := by
  obtain ⟨a, as, ha⟩ := List.exists_cons_of_ne_nil hne
  have hconstA : ∀ x ∈ c.numericValues, x = a := fun x hx =>
    hconst x hx a (by rw [ha]; exact List.mem_cons_self a as)
  have hz := detectZscore_const (OutlierDetector.init "z_score" k t false)
    c.numericValues a hconstA
  have hempty : c.numericValues.isEmpty = false := by
    simpa [List.isEmpty_iff] using hne
  refine ⟨(OutlierDetector.init "z_score" k t false).buildColumnResult c.name
    c.numericValues
    ((OutlierDetector.init "z_score" k t false).detectZscoreOutliers c.numericValues).count
    ((OutlierDetector.init "z_score" k t false).detectZscoreOutliers c.numericValues).values
    none none, ?_, ?_⟩
  · simp [OutlierDetector.analyzeColumn, OutlierDetector.init, hfind, hempty]
  · simp [OutlierDetector.buildColumnResult, hz.1]

/-- C5 witness: a constant column with value 5 under z-score analysis. -/
theorem c5_zscore_constant_column_witness :
    ∃ res, OutlierDetector.analyzeColumn (OutlierDetector.init "z_score" (3/2) 3 false)
        constDf "x" = Except.ok (some res) ∧ res.outlier_count = 0 :=
  c5_zscore_constant_column (3/2) 3 constDf "x" constCol (by decide) (by decide)
    (by decide)

/-- C9: the three analyze operations leave the dataframe state unchanged for
every input frame and configuration (each pandas call they perform returns a
fresh object), while the explicitly opt-in removal helpers do mutate it:
removing the duplicate of a two-row frame in place yields a different
frame. -/
theorem c9_analyze_never_mutates :
    (∀ (a : MissingValueAnalyzer) (df : DataFrame), (a.analyze df).2 = df) ∧
    (∀ (d : DuplicateDetector) (df : DataFrame), (d.analyze df).2 = df) ∧
    (∀ (o : OutlierDetector) (df : DataFrame), (o.analyze df).2 = df) ∧
    (DuplicateDetector.removeDuplicates ⟨true, none⟩ dupPairDf
      KeepPolicy.first true).2 ≠ dupPairDf := by
  refine ⟨fun a df => rfl, fun d df => rfl, fun o df => ?_, by decide⟩
  unfold OutlierDetector.analyze
  dsimp only
  split
  · rfl
  · split <;> rfl

end DriftMonitor
